import Mathlib

/-!
Shallow embedding of the Paddle billing-event callback of `server.py`
(`setup_paddle_callback` / the `paddle` view function), together with the
collaborators it touches: the user directory (`User.get_by(email=...)`),
the subscription repository (`Subscription.get_by`, `Subscription.create`,
attribute assignment plus `db.session.commit()`), and the Flask
`error_handler` that maps any unhandled exception to an HTTP 500.

Persistence semantics: attribute assignments on an ORM object are
session-local until `db.session.commit()`; an unhandled exception aborts
the request before commit, so the persisted database is only changed at a
commit point.  The model state `DB` is the persisted database, and each
branch applies its mutation exactly at its `db.session.commit()` call.
The model also records a trace of repository lookups and commits, so that
"performs no lookup" and "performs no mutation" are statements about the
trace and the state.
-/

namespace PaddleModel

/-- Internal plan enumeration (`PlanEnum` with members `monthly`, `yearly`). -/
inductive Plan where
  | monthly
  | yearly
deriving DecidableEq, Repr

/-- A calendar date as parsed by `arrow.get(s, "YYYY-MM-DD").date()`. -/
structure Date where
  year : Nat
  month : Nat
  day : Nat
deriving DecidableEq, Repr

/-- A user row: `User.get_by(email=...)` resolves an email to a user with an `id`. -/
structure User where
  id : Nat
  email : String
deriving DecidableEq, Repr

/-- A subscription row.  `id` is the database primary key; `subscription_id`
is the Paddle-assigned external identifier.  Optional fields mirror columns
assigned directly from `request.form.get(...)`, which yields `None` when the
field is absent. -/
structure Subscription where
  id : Nat
  user_id : Nat
  subscription_id : Option String
  cancel_url : Option String
  update_url : Option String
  plan : Plan
  cancelled : Bool
  event_time : Nat
  next_bill_date : Date
deriving DecidableEq, Repr

/-- The persisted database plus the clock (`arrow.now()` modelled as `now`)
and a fresh-primary-key counter for inserts. -/
structure DB where
  users : List User
  subs : List Subscription
  now : Nat
  nextId : Nat
deriving DecidableEq, Repr

/-- The raw POST form of the callback; every field read through
`request.form.get(key)` is `Option String` (`none` when absent). -/
structure Form where
  alert_name : Option String
  email : Option String
  subscription_plan_id : Option String
  subscription_id : Option String
  cancel_url : Option String
  update_url : Option String
  next_bill_date : Option String
  cancellation_effective_date : Option String
  p_signature : Option String
deriving DecidableEq, Repr

/-- Unhandled Python exceptions that can escape the `paddle` view:
`int(...)` on a missing or non-numeric field (`TypeError`/`ValueError`),
attribute access on `None` (`AttributeError` from `user.id` when the email
matched no user), and `arrow.get(s, "YYYY-MM-DD")` on a malformed date
(`ParserError`).  All of them reach `error_handler` and become HTTP 500. -/
inductive PyErr where
  | intParse
  | noneAttr
  | dateParse
deriving DecidableEq, Repr

/-- The literal responses the view returns: `"OK"` (200), `"KO", 400`
(bad signature), `"No such subscription", 400`. -/
inductive Response where
  | okResp
  | koResp
  | noSuchResp
deriving DecidableEq, Repr

/-- Result of a request: a normal response, or an unhandled exception. -/
inductive Outcome where
  | ok (r : Response)
  | err (e : PyErr)
deriving DecidableEq, Repr

/-- Repository-facing effects of one request, in order of occurrence. -/
inductive Eff where
  | lookupUserByEmail (email : Option String)
  | lookupSubByUser (uid : Nat)
  | lookupSubById (sid : Option String)
  | commit
deriving DecidableEq, Repr

/-- The outcome, the persisted state after the request, and the effect trace. -/
structure PResult where
  resp : Outcome
  state : DB
  trace : List Eff
deriving DecidableEq, Repr

/-- HTTP status the surrounding framing produces for each outcome:
200 for `"OK"`, 400 for the two explicit rejections, and 500 via
`error_handler` for any unhandled exception. -/
def statusOf : Outcome → Nat
  | .ok .okResp => 200
  | .ok .koResp => 400
  | .ok .noSuchResp => 400
  | .err _ => 500

/-- `User.get_by(email=...)`: `None` when the email is absent or matches no
user (user emails are non-null, so `email=None` matches nothing). -/
def findUserByEmail (users : List User) : Option String → Option User
  | none => none
  | some e => users.find? (fun u => u.email = e)

/-- `Subscription.get_by(user_id=...)`. -/
def findSubByUser (subs : List Subscription) (uid : Nat) : Option Subscription :=
  subs.find? (fun s => s.user_id = uid)

/-- `Subscription.get_by(subscription_id=...)`; comparing the optional
column directly models SQL `IS NULL` matching when the form field is absent. -/
def findSubById (subs : List Subscription) (sid : Option String) : Option Subscription :=
  subs.find? (fun s => s.subscription_id = sid)

/-- `UPDATE ... WHERE id = pk`: replace the row whose primary key matches. -/
def replaceById (subs : List Subscription) (s' : Subscription) : List Subscription :=
  subs.map (fun x => if x.id = s'.id then s' else x)

/-- Numeric value of a digit character. -/
def digitVal (c : Char) : Nat := c.toNat - 48

/-- Decimal value of a run of characters; `none` if any is not a digit. -/
def digitsToNat (acc : Nat) : List Char → Option Nat
  | [] => some acc
  | c :: cs => if c.isDigit then digitsToNat (10 * acc + digitVal c) cs else none

/-- Python `int(s)` on a string: an optional minus sign followed by at
least one decimal digit; anything else raises `ValueError` (`none`). -/
def parseIntStr (s : String) : Option Int :=
  match s.data with
  | [] => none
  | ['-'] => none
  | '-' :: c :: cs => (digitsToNat 0 (c :: cs)).map (fun n => -(n : Int))
  | c :: cs => (digitsToNat 0 (c :: cs)).map (fun n => (n : Int))

/-- `int(request.form.get(key))`: `none` models the `TypeError` on a missing
field and the `ValueError` on a non-numeric string. -/
def parseInt : Option String → Option Int
  | none => none
  | some s => parseIntStr s

/-- `arrow.get(s, "YYYY-MM-DD").date()`: succeeds only on a
`YYYY-MM-DD`-shaped string, otherwise raises `ParserError` (`none`). -/
def parseDate : Option String → Option Date
  | none => none
  | some s =>
    match s.data with
    | [y1, y2, y3, y4, '-', m1, m2, '-', d1, d2] =>
      if (y1.isDigit && y2.isDigit && y3.isDigit && y4.isDigit &&
          m1.isDigit && m2.isDigit && d1.isDigit && d2.isDigit) = true then
        let y := ((digitVal y1 * 10 + digitVal y2) * 10 + digitVal y3) * 10 + digitVal y4
        let m := digitVal m1 * 10 + digitVal m2
        let d := digitVal d1 * 10 + digitVal d2
        if 1 ≤ m ∧ m ≤ 12 ∧ 1 ≤ d ∧ d ≤ 31 then some ⟨y, m, d⟩ else none
      else none
    | _ => none

/-- Modelled from the spec: `PADDLE_MONTHLY_PRODUCT_ID` is imported from
`app.config`, which is not in `src/`; the spec says exactly one provider
plan identifier is designated as monthly.  Its concrete value is
irrelevant to every property below. -/
def PADDLE_MONTHLY_PRODUCT_ID : Int := 505534

/-- Plan resolution as the view performs it inline:
`int(form["subscription_plan_id"]) == PADDLE_MONTHLY_PRODUCT_ID` selects
`monthly`, any other integer selects `yearly`; a missing or non-numeric
identifier raises (`none`). -/
def resolvePlan (planId : Option String) : Option Plan :=
  match parseInt planId with
  | none => none
  | some pid =>
    some (if pid = PADDLE_MONTHLY_PRODUCT_ID then Plan.monthly else Plan.yearly)

/-- Canonical serialization of the payload fields (signature excluded). -/
def optStr : Option String → String
  | none => "#"
  | some s => "$" ++ s

/-- Modelled from the spec: `paddle_utils.verify_incoming_request` lives in
`app.paddle_utils`, which is not in `src/`; the spec says verification
applies a shared-secret scheme to the payload's fields in a canonical
order and compares against the accompanying signature. -/
def computeSig (secret : String) (f : Form) : String :=
  secret ++ "|" ++ optStr f.alert_name ++ optStr f.email ++
    optStr f.subscription_plan_id ++ optStr f.subscription_id ++
    optStr f.cancel_url ++ optStr f.update_url ++
    optStr f.next_bill_date ++ optStr f.cancellation_effective_date

/-- The configured shared secret of the verification scheme. -/
def paddleSecret : String := "paddle-shared-secret"

/-- Modelled from the spec: the verification gate; true only when the
accompanying `p_signature` matches the locally computed signature of the
other fields. -/
def verify_incoming_request (f : Form) : Bool :=
  f.p_signature = some (computeSig paddleSecret f)

/-- The `paddle` view function of `setup_paddle_callback`, as a function of
the form and the persisted state.  Branch structure, evaluation order of
the fallible operations, and commit points follow the Python line by line. -/
def paddle (f : Form) (st : DB) : PResult :=
  if verify_incoming_request f = false then
    { resp := .ok .koResp, state := st, trace := [] }
  else if f.alert_name = some "subscription_created" then
    let t0 := [Eff.lookupUserByEmail f.email]
    let user := findUserByEmail st.users f.email
    match resolvePlan f.subscription_plan_id with
    | none => { resp := .err .intParse, state := st, trace := t0 }
    | some plan =>
      match user with
      | none => { resp := .err .noneAttr, state := st, trace := t0 }
      | some u =>
        let t1 := t0 ++ [Eff.lookupSubByUser u.id]
        match findSubByUser st.subs u.id with
        | none =>
          match parseDate f.next_bill_date with
          | none => { resp := .err .dateParse, state := st, trace := t1 }
          | some d =>
            let s : Subscription :=
              { id := st.nextId, user_id := u.id,
                subscription_id := f.subscription_id,
                cancel_url := f.cancel_url, update_url := f.update_url,
                plan := plan, cancelled := false,
                event_time := st.now, next_bill_date := d }
            { resp := .ok .okResp,
              state := { st with subs := st.subs ++ [s], nextId := st.nextId + 1 },
              trace := t1 ++ [Eff.commit] }
        | some sub =>
          match parseDate f.next_bill_date with
          | none => { resp := .err .dateParse, state := st, trace := t1 }
          | some d =>
            let s' : Subscription :=
              { sub with
                cancel_url := f.cancel_url,
                update_url := f.update_url,
                subscription_id := f.subscription_id,
                event_time := st.now,
                next_bill_date := d,
                plan := plan,
                cancelled := false }
            { resp := .ok .okResp,
              state := { st with subs := replaceById st.subs s' },
              trace := t1 ++ [Eff.commit] }
  else if f.alert_name = some "subscription_payment_succeeded" then
    let t0 := [Eff.lookupSubById f.subscription_id]
    match findSubById st.subs f.subscription_id with
    | some sub =>
      match parseDate f.next_bill_date with
      | none => { resp := .err .dateParse, state := st, trace := t0 }
      | some d =>
        let s' := { sub with event_time := st.now, next_bill_date := d }
        { resp := .ok .okResp,
          state := { st with subs := replaceById st.subs s' },
          trace := t0 ++ [Eff.commit] }
    | none => { resp := .ok .okResp, state := st, trace := t0 }
  else if f.alert_name = some "subscription_cancelled" then
    let t0 := [Eff.lookupSubById f.subscription_id]
    match findSubById st.subs f.subscription_id with
    | some sub =>
      let s' := { sub with event_time := st.now, cancelled := true }
      { resp := .ok .okResp,
        state := { st with subs := replaceById st.subs s' },
        trace := t0 ++ [Eff.commit] }
    | none => { resp := .ok .noSuchResp, state := st, trace := t0 }
  else if f.alert_name = some "subscription_updated" then
    let t0 := [Eff.lookupSubById f.subscription_id]
    match findSubById st.subs f.subscription_id with
    | some sub =>
      match resolvePlan f.subscription_plan_id with
      | none => { resp := .err .intParse, state := st, trace := t0 }
      | some plan =>
        match parseDate f.next_bill_date with
        | none => { resp := .err .dateParse, state := st, trace := t0 }
        | some d =>
          let s' : Subscription :=
            { sub with
              cancel_url := f.cancel_url,
              update_url := f.update_url,
              event_time := st.now,
              next_bill_date := d,
              plan := plan,
              cancelled := false }
          { resp := .ok .okResp,
            state := { st with subs := replaceById st.subs s' },
            trace := t0 ++ [Eff.commit] }
    | none => { resp := .ok .noSuchResp, state := st, trace := t0 }
  else
    { resp := .ok .okResp, state := st, trace := [] }

/-- The four `alert_name` values the if/elif chain recognizes. -/
def recognizedAlerts : List String :=
  ["subscription_created", "subscription_payment_succeeded",
   "subscription_cancelled", "subscription_updated"]

/-- Attach a valid signature to a form (a payload as Paddle itself would sign it). -/
def signForm (f : Form) : Form :=
  { f with p_signature := some (computeSig paddleSecret f) }

/-! Concrete fixtures used by the closed witness and counterexample theorems. -/

/-- A registered user. -/
def user1 : User := { id := 7, email := "ada@example.com" }

/-- Database with one user and no subscription. -/
def db0 : DB := { users := [user1], subs := [], now := 100, nextId := 1 }

/-- An active subscription of `user1` with external id `SUB1`. -/
def sub1 : Subscription :=
  { id := 1, user_id := 7, subscription_id := some "SUB1",
    cancel_url := some "https://p/cancel", update_url := some "https://p/update",
    plan := Plan.monthly, cancelled := false, event_time := 50,
    next_bill_date := { year := 2020, month := 1, day := 2 } }

/-- Database with one user and the active subscription `sub1`. -/
def db1 : DB := { users := [user1], subs := [sub1], now := 100, nextId := 2 }

/-- Database whose only subscription is `sub1` cancelled. -/
def db1c : DB :=
  { users := [user1], subs := [{ sub1 with cancelled := true }], now := 100, nextId := 2 }

/-- The empty-field template the fixture forms are built from. -/
def blankForm : Form :=
  { alert_name := none, email := none, subscription_plan_id := none,
    subscription_id := none, cancel_url := none, update_url := none,
    next_bill_date := none, cancellation_effective_date := none,
    p_signature := none }

/-- A correctly signed payload of an unrecognized kind. -/
def formUnknown : Form :=
  signForm { blankForm with alert_name := some "subscription_refunded" }

/-- A correctly signed `subscription_created` payload for `user1`, id `SUB1`. -/
def formCreate : Form :=
  signForm
    { blankForm with
      alert_name := some "subscription_created",
      email := some "ada@example.com",
      subscription_plan_id := some "505534",
      subscription_id := some "SUB1",
      cancel_url := some "https://p/cancel",
      update_url := some "https://p/update",
      next_bill_date := some "2020-01-02" }

/-- Like `formCreate` but carrying a different external id `SUB2`. -/
def formCreate2 : Form :=
  signForm
    { blankForm with
      alert_name := some "subscription_created",
      email := some "ada@example.com",
      subscription_plan_id := some "505534",
      subscription_id := some "SUB2",
      cancel_url := some "https://p/cancel",
      update_url := some "https://p/update",
      next_bill_date := some "2020-01-02" }

/-- A correctly signed `subscription_created` payload for an unknown email. -/
def formCreateNoUser : Form :=
  signForm
    { blankForm with
      alert_name := some "subscription_created",
      email := some "nobody@example.com",
      subscription_plan_id := some "505534",
      subscription_id := some "SUB9",
      next_bill_date := some "2020-01-02" }

/-- A correctly signed `subscription_created` payload with a non-numeric plan id. -/
def formCreateBadPlan : Form :=
  signForm
    { blankForm with
      alert_name := some "subscription_created",
      email := some "ada@example.com",
      subscription_plan_id := some "premium-yearly",
      subscription_id := some "SUB1",
      next_bill_date := some "2020-01-02" }

/-- A correctly signed `subscription_payment_succeeded` payload for `SUB1`. -/
def formPay : Form :=
  signForm
    { blankForm with
      alert_name := some "subscription_payment_succeeded",
      subscription_id := some "SUB1",
      next_bill_date := some "2020-02-02" }

/-- A correctly signed payment payload for `SUB1` with a malformed date. -/
def formPayBadDate : Form :=
  signForm
    { blankForm with
      alert_name := some "subscription_payment_succeeded",
      subscription_id := some "SUB1",
      next_bill_date := some "02/02/2020" }

/-- A correctly signed `subscription_updated` payload for `SUB1`. -/
def formUpdate : Form :=
  signForm
    { blankForm with
      alert_name := some "subscription_updated",
      subscription_id := some "SUB1",
      subscription_plan_id := some "999",
      cancel_url := some "https://p/cancel2",
      update_url := some "https://p/update2",
      next_bill_date := some "2021-05-06" }

/-- A correctly signed `subscription_cancelled` payload for `SUB1`. -/
def formCancel : Form :=
  signForm
    { blankForm with
      alert_name := some "subscription_cancelled",
      subscription_id := some "SUB1",
      cancellation_effective_date := some "2020-03-03" }

/-- `formCreate` with `next_bill_date` tampered after signing. -/
def formTampered : Form :=
  { formCreate with next_bill_date := some "2031-01-02" }

/-! ## Repository lemmas shared by the proofs below -/

/-- An update whose primary key occurs nowhere in the table changes nothing. -/
theorem replaceById_of_forall_ne (l : List Subscription) (s' : Subscription)
    (h : ∀ x ∈ l, x.id ≠ s'.id) : replaceById l s' = l := by
  induction l with
  | nil => rfl
  | cons x xs ih =>
    have hx := h x (by simp)
    have ih' := ih (fun y hy => h y (by simp [hy]))
    simp only [replaceById, List.map_cons] at ih' ⊢
    rw [if_neg hx, ih']

/-- Updating the row found by `find?` preserves the
(primary key, external id) projection of the whole table, provided primary
keys are unique and the replacement row keeps both fields. -/
theorem map_id_sid_replaceById (l : List Subscription) (s s' : Subscription)
    (hnd : (l.map Subscription.id).Nodup)
    (hs : s ∈ l) (hid : s'.id = s.id) (hsid : s'.subscription_id = s.subscription_id) :
    (replaceById l s').map (fun x => (x.id, x.subscription_id)) =
      l.map (fun x => (x.id, x.subscription_id)) := by
  induction l with
  | nil => cases hs
  | cons x xs ih =>
    rw [List.map_cons, List.nodup_cons] at hnd
    obtain ⟨hxnotin, hnd'⟩ := hnd
    rcases List.mem_cons.mp hs with heq | hs'
    · subst heq
      have hrepl : replaceById xs s' = xs := by
        refine replaceById_of_forall_ne xs s' (fun y hy hyid => ?_)
        rw [hid] at hyid
        exact hxnotin (hyid ▸ List.mem_map_of_mem Subscription.id hy)
      simp only [replaceById, List.map_cons] at hrepl ⊢
      rw [if_pos (hid.symm), hrepl]
      simp [hid, hsid]
    · have hxne : x.id ≠ s'.id := by
        rw [hid]
        intro hxe
        exact hxnotin (hxe ▸ List.mem_map_of_mem Subscription.id hs')
      simp only [replaceById, List.map_cons] at ih ⊢
      rw [if_neg hxne, ih hnd' hs']

/-!  ## Claim C1  -/

/-- C1, counterexample: a correctly signed payload of the unrecognized kind
`subscription_refunded` falls through the if/elif chain to `return "OK"`:
the response is the success status 200, not a rejection, although no
mutation is performed.  This refutes the claim that an unrecognized kind
yields a rejection signal mapped to a failure status. -/
theorem unknown_kind_rejection_counterexample :
    verify_incoming_request formUnknown = true ∧
    paddle formUnknown db1 = { resp := .ok .okResp, state := db1, trace := [] } ∧
    statusOf (paddle formUnknown db1).resp = 200 := by
  decide

/-- C1, amended: for every verified payload whose `alert_name` is not one of
the four recognized kinds, the handler returns the success response `"OK"`
(status 200) and performs no repository access and no mutation. -/
theorem unknown_kind_ok_and_no_mutation (f : Form) (st : DB)
    (hv : verify_incoming_request f = true)
    (hk : ∀ k ∈ recognizedAlerts, f.alert_name ≠ some k) :
    paddle f st = { resp := .ok .okResp, state := st, trace := [] } ∧
    statusOf (paddle f st).resp = 200 := by
  have h1 := hk "subscription_created" (by simp [recognizedAlerts])
  have h2 := hk "subscription_payment_succeeded" (by simp [recognizedAlerts])
  have h3 := hk "subscription_cancelled" (by simp [recognizedAlerts])
  have h4 := hk "subscription_updated" (by simp [recognizedAlerts])
  have h : paddle f st = { resp := .ok .okResp, state := st, trace := [] } := by
    simp [paddle, hv, h1, h2, h3, h4]
  exact ⟨h, by rw [h]; rfl⟩

/-- C1, witness: the amended statement instantiated at `formUnknown`, `db1`. -/
theorem unknown_kind_ok_and_no_mutation_witness :
    paddle formUnknown db1 = { resp := .ok .okResp, state := db1, trace := [] } ∧
    statusOf (paddle formUnknown db1).resp = 200 :=
  unknown_kind_ok_and_no_mutation formUnknown db1 (by decide) (by decide)

/-!  ## Claim C2  -/

/-- C2, counterexample: the non-numeric plan identifier `premium-yearly`
does not resolve to `yearly`; `int(...)` raises, so a verified
`subscription_created` event carrying it dies with an unhandled exception
(status 500).  This refutes "yearly for every other identifier string,
including unrecognized or garbage identifiers, without raising an error". -/
theorem resolve_plan_garbage_counterexample :
    resolvePlan (some "premium-yearly") = none ∧
    resolvePlan (some "premium-yearly") ≠ some Plan.yearly ∧
    (paddle formCreateBadPlan db0).resp = .err .intParse ∧
    statusOf (paddle formCreateBadPlan db0).resp = 500 := by
  decide

/-- C2, amended: plan resolution parses the identifier as an integer:
it returns `monthly` exactly when the integer equals the designated
monthly product id, `yearly` for every other integer-valued identifier,
and raises (no plan is produced) on an identifier that is not an integer. -/
theorem resolve_plan_monthly_iff (s : String) :
    (resolvePlan (some s) = some Plan.monthly ↔
      parseIntStr s = some PADDLE_MONTHLY_PRODUCT_ID) ∧
    (∀ n : Int, parseIntStr s = some n → n ≠ PADDLE_MONTHLY_PRODUCT_ID →
      resolvePlan (some s) = some Plan.yearly) ∧
    (parseIntStr s = none → resolvePlan (some s) = none) := by
  unfold resolvePlan parseInt
  rcases h : parseIntStr s with _ | n
  · simp [h]
  · by_cases hn : n = PADDLE_MONTHLY_PRODUCT_ID <;> simp [h, hn]

/-- C2, witness: the amended statement instantiated at the integer
identifier `"778091"`, which resolves to `yearly`. -/
theorem resolve_plan_monthly_iff_witness :
    resolvePlan (some "778091") = some Plan.yearly :=
  (resolve_plan_monthly_iff "778091").2.1 778091 (by decide) (by decide)

/-- The `"No such subscription", 400` rejection result for a form and state;
abbreviates the result records in the statements below. -/
def noSuchResult (f : Form) (st : DB) : PResult :=
  { resp := .ok .noSuchResp, state := st, trace := [Eff.lookupSubById f.subscription_id] }

/-!  ## Claim C3  -/

/-- C3, counterexample: for a verified payment event whose date is
malformed, the repository lookup IS performed (it is the one element of
the trace) before the parse failure; the event does not fail at
classification time before any lookup, as the claim states. -/
theorem malformed_date_after_lookup_counterexample :
    parseDate formPayBadDate.next_bill_date = none ∧
    paddle formPayBadDate db1 =
      { resp := .err .dateParse, state := db1,
        trace := [Eff.lookupSubById (some "SUB1")] } := by
  decide

/-- C3, amended: a malformed `next_bill_date` fails at reconciliation time,
after the repository lookup of its branch, as an unhandled parse error;
no mutation is committed (state unchanged, no commit in the trace).  The
three branches that parse the date are covered: payment on a known id,
update on a known id, and creation. -/
theorem malformed_date_fails_after_lookup (f : Form) (st : DB)
    (hv : verify_incoming_request f = true)
    (hd : parseDate f.next_bill_date = none) :
    (f.alert_name = some "subscription_payment_succeeded" →
      ∀ s, findSubById st.subs f.subscription_id = some s →
        paddle f st =
          { resp := .err .dateParse, state := st,
            trace := [Eff.lookupSubById f.subscription_id] }) ∧
    (f.alert_name = some "subscription_updated" →
      ∀ s, findSubById st.subs f.subscription_id = some s →
        ∀ p, resolvePlan f.subscription_plan_id = some p →
          paddle f st =
            { resp := .err .dateParse, state := st,
              trace := [Eff.lookupSubById f.subscription_id] }) ∧
    (f.alert_name = some "subscription_created" →
      ∀ u, findUserByEmail st.users f.email = some u →
        ∀ p, resolvePlan f.subscription_plan_id = some p →
          paddle f st =
            { resp := .err .dateParse, state := st,
              trace := [Eff.lookupUserByEmail f.email, Eff.lookupSubByUser u.id] }) := by
  refine ⟨fun ha s hs => ?_, fun ha s hs p hp => ?_, fun ha u hu p hp => ?_⟩
  · simp [paddle, hv, ha, hs, hd]
  · simp [paddle, hv, ha, hs, hp, hd]
  · rcases hsub : findSubByUser st.subs u.id with _ | s <;>
      simp [paddle, hv, ha, hu, hp, hd, hsub]

/-- C3, witness: the payment case of the amended statement at
`formPayBadDate`, `db1`. -/
theorem malformed_date_fails_after_lookup_witness :
    paddle formPayBadDate db1 =
      { resp := .err .dateParse, state := db1,
        trace := [Eff.lookupSubById formPayBadDate.subscription_id] } :=
  (malformed_date_fails_after_lookup formPayBadDate db1 (by decide) (by decide)).1
    (by decide) sub1 (by decide)

/-!  ## Claim C7  -/

/-- C7: applying a verified `subscription_updated` event for the id of a
cancelled subscription succeeds and leaves a record with the same primary
key, `cancelled = false`, the newly resolved plan, and the event's
`cancel_url`, `update_url` and `next_bill_date`; the external id is kept. -/
theorem update_uncancels (f : Form) (st : DB) (s : Subscription) (p : Plan) (d : Date)
    (hv : verify_incoming_request f = true)
    (ha : f.alert_name = some "subscription_updated")
    (hs : findSubById st.subs f.subscription_id = some s)
    (hc : s.cancelled = true)
    (hp : resolvePlan f.subscription_plan_id = some p)
    (hd : parseDate f.next_bill_date = some d) :
    (paddle f st).resp = .ok .okResp ∧
    ∃ s' ∈ (paddle f st).state.subs,
      s'.id = s.id ∧ s'.cancelled = false ∧ s'.plan = p ∧
      s'.cancel_url = f.cancel_url ∧ s'.update_url = f.update_url ∧
      s'.next_bill_date = d ∧ s'.subscription_id = s.subscription_id := by
  have hmem := List.mem_of_find?_eq_some hs
  refine ⟨by simp [paddle, hv, ha, hs, hp, hd], ?_⟩
  refine ⟨{ s with
            cancel_url := f.cancel_url,
            update_url := f.update_url,
            event_time := st.now,
            next_bill_date := d,
            plan := p,
            cancelled := false }, ?_, rfl, rfl, rfl, rfl, rfl, rfl, rfl⟩
  simp only [paddle, hv, ha, hs, hp, hd]
  simp only [if_neg, replaceById]
  have himg := List.mem_map_of_mem
    (fun x => if x.id = s.id then
      { s with
        cancel_url := f.cancel_url,
        update_url := f.update_url,
        event_time := st.now,
        next_bill_date := d,
        plan := p,
        cancelled := false }
      else x) hmem
  simpa using himg

/-- C7, witness: `formUpdate` applied to the cancelled subscription of `db1c`. -/
theorem update_uncancels_witness :
    (paddle formUpdate db1c).resp = .ok .okResp ∧
    ∃ s' ∈ (paddle formUpdate db1c).state.subs,
      s'.id = sub1.id ∧ s'.cancelled = false ∧ s'.plan = Plan.yearly ∧
      s'.cancel_url = formUpdate.cancel_url ∧ s'.update_url = formUpdate.update_url ∧
      s'.next_bill_date = { year := 2021, month := 5, day := 6 } ∧
      s'.subscription_id = sub1.subscription_id := by
  have h := update_uncancels formUpdate db1c { sub1 with cancelled := true }
    Plan.yearly { year := 2021, month := 5, day := 6 }
    (by decide) (by decide) (by decide) (by decide) (by decide) (by decide)
  simpa using h

/-!  ## Claim C5  -/

/-- C5: a verified payment event for an unknown external id returns the
benign success `"OK"` with no mutation (state unchanged, no commit), and a
subsequent verified `subscription_created` event carrying the same
external id then succeeds normally: it returns `"OK"` and the repository
afterwards resolves that external id to the freshly inserted record. -/
theorem payment_before_created_noop (f1 f2 : Form) (st : DB) (u : User) (p : Plan) (d : Date)
    (hv1 : verify_incoming_request f1 = true)
    (ha1 : f1.alert_name = some "subscription_payment_succeeded")
    (hmiss : findSubById st.subs f1.subscription_id = none)
    (hv2 : verify_incoming_request f2 = true)
    (ha2 : f2.alert_name = some "subscription_created")
    (hid : f2.subscription_id = f1.subscription_id)
    (hu : findUserByEmail st.users f2.email = some u)
    (hs0 : findSubByUser st.subs u.id = none)
    (hp : resolvePlan f2.subscription_plan_id = some p)
    (hd : parseDate f2.next_bill_date = some d) :
    paddle f1 st =
      { resp := .ok .okResp, state := st,
        trace := [Eff.lookupSubById f1.subscription_id] } ∧
    (paddle f2 (paddle f1 st).state).resp = .ok .okResp ∧
    findSubById (paddle f2 (paddle f1 st).state).state.subs f1.subscription_id =
      some { id := st.nextId, user_id := u.id, subscription_id := f1.subscription_id,
             cancel_url := f2.cancel_url, update_url := f2.update_url,
             plan := p, cancelled := false, event_time := st.now, next_bill_date := d } := by
  have h1 : paddle f1 st =
      { resp := .ok .okResp, state := st,
        trace := [Eff.lookupSubById f1.subscription_id] } := by
    simp [paddle, hv1, ha1, hmiss]
  refine ⟨h1, ?_, ?_⟩
  · rw [h1]
    simp [paddle, hv2, ha2, hu, hs0, hp, hd]
  · rw [h1]
    simp only [paddle, hv2, ha2, hu, hs0, hp, hd]
    simp only [findSubById] at hmiss ⊢
    simp [List.find?_append, hmiss, hid]

/-- C5, witness: `formPay` for `SUB1` against the empty repository, then
`formCreate` for the same id. -/
theorem payment_before_created_noop_witness :
    paddle formPay db0 =
      { resp := .ok .okResp, state := db0,
        trace := [Eff.lookupSubById (some "SUB1")] } ∧
    (paddle formCreate (paddle formPay db0).state).resp = .ok .okResp ∧
    findSubById (paddle formCreate (paddle formPay db0).state).state.subs (some "SUB1") =
      some { id := 1, user_id := 7, subscription_id := some "SUB1",
             cancel_url := some "https://p/cancel", update_url := some "https://p/update",
             plan := Plan.monthly, cancelled := false, event_time := 100,
             next_bill_date := { year := 2020, month := 1, day := 2 } } := by
  have h := payment_before_created_noop formPay formCreate db0 user1 Plan.monthly
    { year := 2020, month := 1, day := 2 }
    (by decide) (by decide) (by decide) (by decide) (by decide) (by decide)
    (by decide) (by decide) (by decide) (by decide)
  simpa using h

/-!  ## Claim C6  -/

/-- The record a first `subscription_created` event inserts. -/
def createdSub (f : Form) (st : DB) (u : User) (p : Plan) (d : Date) : Subscription :=
  { id := st.nextId, user_id := u.id, subscription_id := f.subscription_id,
    cancel_url := f.cancel_url, update_url := f.update_url, plan := p,
    cancelled := false, event_time := st.now, next_bill_date := d }

/-- C6: applying the same verified `subscription_created` event twice yields
the same persisted state as applying it once (so in particular the same
record in plan, cancel_url, update_url, subscription_id, next_bill_date),
and that record has `cancelled = false`.  `hfresh` is the repository
invariant that the fresh primary key is unused. -/
theorem created_idempotent (f : Form) (st : DB) (u : User) (p : Plan) (d : Date)
    (hv : verify_incoming_request f = true)
    (ha : f.alert_name = some "subscription_created")
    (hu : findUserByEmail st.users f.email = some u)
    (hs0 : findSubByUser st.subs u.id = none)
    (hfresh : ∀ s ∈ st.subs, s.id ≠ st.nextId)
    (hp : resolvePlan f.subscription_plan_id = some p)
    (hd : parseDate f.next_bill_date = some d) :
    (paddle f (paddle f st).state).state = (paddle f st).state ∧
    findSubByUser (paddle f st).state.subs u.id = some (createdSub f st u p d) ∧
    (createdSub f st u p d).cancelled = false := by
  have h1 : (paddle f st).state =
      { st with subs := st.subs ++ [createdSub f st u p d], nextId := st.nextId + 1 } := by
    simp [paddle, createdSub, hv, ha, hu, hs0, hp, hd]
  have hfind : findSubByUser (st.subs ++ [createdSub f st u p d]) u.id =
      some (createdSub f st u p d) := by
    simp only [findSubByUser] at hs0 ⊢
    rw [List.find?_append, hs0]
    simp [createdSub]
  have hrepl : replaceById (st.subs ++ [createdSub f st u p d]) (createdSub f st u p d) =
      st.subs ++ [createdSub f st u p d] := by
    simp only [replaceById, List.map_append]
    have hleft : st.subs.map
        (fun x => if x.id = (createdSub f st u p d).id then createdSub f st u p d else x) =
        st.subs := by
      have := replaceById_of_forall_ne st.subs (createdSub f st u p d)
        (fun x hx => hfresh x hx)
      simpa [replaceById] using this
    rw [hleft]
    simp
  refine ⟨?_, by rw [h1]; exact hfind, rfl⟩
  rw [h1]
  have hfind' := hfind
  have hrepl' := hrepl
  simp only [createdSub] at hfind' hrepl'
  simp [paddle, hv, ha, hu, hp, hd, hfind', hrepl', createdSub]

/-- C6, witness: `formCreate` applied twice to `db0`. -/
theorem created_idempotent_witness :
    (paddle formCreate (paddle formCreate db0).state).state = (paddle formCreate db0).state ∧
    findSubByUser (paddle formCreate db0).state.subs user1.id =
      some (createdSub formCreate db0 user1 Plan.monthly
        { year := 2020, month := 1, day := 2 }) ∧
    (createdSub formCreate db0 user1 Plan.monthly
        { year := 2020, month := 1, day := 2 }).cancelled = false :=
  created_idempotent formCreate db0 user1 Plan.monthly
    { year := 2020, month := 1, day := 2 }
    (by decide) (by decide) (by decide) (by decide)
    (by intro s hs; cases hs) (by decide) (by decide)

/-!  ## Claim C4  -/

/-- C4, counterexample: `db1` holds the subscription of `user1` with its
external id set to `SUB1`; the verified `subscription_created` event
`formCreate2` (same email, external id `SUB2`) overwrites it with `SUB2`.
This refutes "once set, never changes". -/
theorem external_id_overwritten_counterexample :
    verify_incoming_request formCreate2 = true ∧
    db1.subs.map (fun x => x.subscription_id) = [some "SUB1"] ∧
    (paddle formCreate2 db1).resp = .ok .okResp ∧
    (paddle formCreate2 db1).state.subs.map (fun x => x.subscription_id) = [some "SUB2"] := by
  decide

/-- C4, amended: every event other than `subscription_created` leaves the
(primary key, external id) projection of the subscription table unchanged:
payment, cancellation and update events never change any record's external
id and never create a record.  Only a replayed `subscription_created` can
overwrite it.  `hnd` is the primary-key uniqueness invariant of the table. -/
theorem external_id_unchanged_by_noncreate (f : Form) (st : DB)
    (hnd : (st.subs.map Subscription.id).Nodup)
    (hk : f.alert_name ≠ some "subscription_created") :
    (paddle f st).state.subs.map (fun x => (x.id, x.subscription_id)) =
      st.subs.map (fun x => (x.id, x.subscription_id)) := by
  cases hv : verify_incoming_request f with
  | false => simp [paddle, hv]
  | true =>
    by_cases h2 : f.alert_name = some "subscription_payment_succeeded"
    · rcases hsub : findSubById st.subs f.subscription_id with _ | s
      · simp [paddle, hv, hk, h2, hsub]
      · have hmem := List.mem_of_find?_eq_some hsub
        rcases hd : parseDate f.next_bill_date with _ | d
        · simp [paddle, hv, hk, h2, hsub, hd]
        · simp only [paddle, hv, hk, h2, hsub, hd]
          simp only [Bool.true_eq_false, if_false, if_neg hk, if_pos rfl]
          exact map_id_sid_replaceById st.subs s _ hnd hmem rfl rfl
    · by_cases h3 : f.alert_name = some "subscription_cancelled"
      · rcases hsub : findSubById st.subs f.subscription_id with _ | s
        · simp [paddle, hv, hk, h2, h3, hsub]
        · have hmem := List.mem_of_find?_eq_some hsub
          simp only [paddle, hv, hk, h2, h3, hsub]
          simp only [Bool.true_eq_false, if_false, if_neg hk, if_neg h2, if_pos rfl]
          exact map_id_sid_replaceById st.subs s _ hnd hmem rfl rfl
      · by_cases h4 : f.alert_name = some "subscription_updated"
        · rcases hsub : findSubById st.subs f.subscription_id with _ | s
          · simp [paddle, hv, hk, h2, h3, h4, hsub]
          · have hmem := List.mem_of_find?_eq_some hsub
            rcases hp : resolvePlan f.subscription_plan_id with _ | p
            · simp [paddle, hv, hk, h2, h3, h4, hsub, hp]
            · rcases hd : parseDate f.next_bill_date with _ | d
              · simp [paddle, hv, hk, h2, h3, h4, hsub, hp, hd]
              · simp only [paddle, hv, hk, h2, h3, h4, hsub, hp, hd]
                simp only [Bool.true_eq_false, if_false, if_neg hk, if_neg h2,
                  if_neg h3, if_pos rfl]
                exact map_id_sid_replaceById st.subs s _ hnd hmem rfl rfl
        · simp [paddle, hv, hk, h2, h3, h4]

/-- C4, witness: the amended statement at `formPay`, `db1`. -/
theorem external_id_unchanged_by_noncreate_witness :
    (paddle formPay db1).state.subs.map (fun x => (x.id, x.subscription_id)) =
      db1.subs.map (fun x => (x.id, x.subscription_id)) :=
  external_id_unchanged_by_noncreate formPay db1 (by decide) (by decide)

/-!  ## Claim C8  -/

/-- C8: a verified `subscription_cancelled` or `subscription_updated` event
whose `subscription_id` matches no record returns the
`"No such subscription"` rejection (status 400) and mutates nothing: the
state is unchanged and the trace holds the lookup but no commit. -/
theorem cancel_update_unknown_id_rejected (f : Form) (st : DB)
    (hv : verify_incoming_request f = true)
    (hmiss : findSubById st.subs f.subscription_id = none) :
    (f.alert_name = some "subscription_cancelled" → paddle f st = noSuchResult f st) ∧
    (f.alert_name = some "subscription_updated" → paddle f st = noSuchResult f st) ∧
    statusOf (Outcome.ok Response.noSuchResp) = 400 := by
  refine ⟨fun ha => ?_, fun ha => ?_, rfl⟩ <;> simp [paddle, noSuchResult, hv, ha, hmiss]

/-- C8, witness: a cancellation for `SUB1` against the empty repository. -/
theorem cancel_update_unknown_id_rejected_witness :
    paddle formCancel db0 = noSuchResult formCancel db0 :=
  (cancel_update_unknown_id_rejected formCancel db0 (by decide) (by decide)).1 (by decide)

/-!  ## Claim C9  -/

/-- C9: a payload failing signature verification is rejected with
`"KO"` (status 400) before anything else: the state is unchanged and the
trace is empty, so no lookup and no mutation happened. -/
theorem bad_signature_rejected_first (f : Form) (st : DB)
    (hv : verify_incoming_request f = false) :
    paddle f st = { resp := .ok .koResp, state := st, trace := [] } ∧
    statusOf (Outcome.ok Response.koResp) = 400 := by
  exact ⟨by simp [paddle, hv], rfl⟩

/-- C9, witness: `formTampered` alters `next_bill_date` after signing, so
verification fails and the handler rejects it without any side effect. -/
theorem bad_signature_rejected_first_witness :
    paddle formTampered db1 = { resp := .ok .koResp, state := db1, trace := [] } ∧
    statusOf (Outcome.ok Response.koResp) = 400 :=
  bad_signature_rejected_first formTampered db1 (by decide)

/-!  ## Claim C10  -/

/-- C10: a verified `subscription_created` event whose email matches no
user leaves the state unchanged, performs only the user lookup, and dies
with an unhandled exception surfacing as status 500; when the plan id is
numeric the exception is precisely the `None`-dereference of the absent
user (`user.id`). -/
theorem created_unknown_user_internal_error (f : Form) (st : DB)
    (hv : verify_incoming_request f = true)
    (ha : f.alert_name = some "subscription_created")
    (hu : findUserByEmail st.users f.email = none) :
    (paddle f st).state = st ∧
    (paddle f st).trace = [Eff.lookupUserByEmail f.email] ∧
    statusOf (paddle f st).resp = 500 ∧
    (∀ p, resolvePlan f.subscription_plan_id = some p →
      (paddle f st).resp = .err .noneAttr) := by
  rcases hp : resolvePlan f.subscription_plan_id with _ | p <;>
    simp [paddle, hv, ha, hu, hp, statusOf]

/-- C10, witness: `formCreateNoUser` against `db0`. -/
theorem created_unknown_user_internal_error_witness :
    (paddle formCreateNoUser db0).state = db0 ∧
    (paddle formCreateNoUser db0).resp = .err .noneAttr :=
  ⟨(created_unknown_user_internal_error formCreateNoUser db0
      (by decide) (by decide) (by decide)).1,
   (created_unknown_user_internal_error formCreateNoUser db0
      (by decide) (by decide) (by decide)).2.2.2 Plan.monthly (by decide)⟩

end PaddleModel
